import Mathlib

/-
Verification of the ModelViewer client (src/src/App.tsx).

The whole application is one React component (`App`) plus a pure render
component (`Scene`).  We embed it as an explicit state machine:

* `AppState` collects the `useState` cells of `App` (lines 76-86), the
  immutable page origin (`window.location.origin`), and the list of every
  `EventSource` instance constructed so far together with its closed flag
  (so that connection-lifecycle invariants can be stated).
* `step` maps each UI or transport event to the state transformation its
  handler performs in the source.
* Angles and scales are JavaScript numbers; we model them as real numbers.
-/

namespace ModelViewer

/-- The telemetry payload shape (App.tsx lines 24-28). -/
structure GyroData where
  x : ℝ
  y : ℝ
  z : ℝ

/-- One EventSource instance: the URL it was constructed with
(App.tsx line 95) and whether close() has been called on it. -/
structure EventSrc where
  url : String
  closed : Bool
  deriving DecidableEq, Repr

/-- The state of the App component (App.tsx lines 76-86), together with the
page origin and the history of EventSource instances.  `eventSource` holds the
index into `conns` of the instance currently stored in the `eventSource`
state cell, `none` before the first connection effect has run. -/
structure AppState where
  connectionDialogOpen : Bool
  modelDialogOpen : Bool
  connectionUrl : String
  changeConnectionUrl : Bool
  modelRotation : Fin 3 → ℝ
  modelScale : ℝ
  rotation : Fin 3 → ℝ
  model : Option String
  eventSource : Option Nat
  connectionError : Option String
  origin : String
  conns : List EventSrc

/-- The initial state of a freshly mounted component (App.tsx lines 76-86):
note that `changeConnectionUrl` starts out `true` (line 79). -/
def initState (origin : String) : AppState where
  connectionDialogOpen := false
  modelDialogOpen := false
  connectionUrl := origin
  changeConnectionUrl := true
  modelRotation := ![0, 0, 0]
  modelScale := 1
  rotation := ![0, 0, 0]
  model := none
  eventSource := none
  connectionError := none
  origin := origin
  conns := []

/-- Mark the connection at index `i` as closed (the effect of calling
`close()` on that EventSource).  Out-of-range indices change nothing. -/
def closeAt : List EventSrc → Nat → List EventSrc
  | [], _ => []
  | c :: cs, 0 => { c with closed := true } :: cs
  | c :: cs, n + 1 => c :: closeAt cs n

/-- CoordinateMapper: the axis remapping performed on each data event
(App.tsx line 108): `setRotation([data.x, data.z, data.y])`. -/
def mapSample (d : GyroData) : Fin 3 → ℝ :=
  ![d.x, d.z, d.y]

/-- The body of the `data` event listener (App.tsx lines 106-109).  The
payload is the result of `JSON.parse(event.data)`; a parse failure is the
thrown exception, and the listener contains no try/catch, so the failure
propagates out of the handler (`Except.error`).  On success the rotation
state is replaced by the remapped sample. -/
def dataHandler (payload : Except String GyroData) (s : AppState) :
    Except String AppState :=
  match payload with
  | Except.error e => Except.error e
  | Except.ok d => Except.ok { s with rotation := mapSample d }

/-- The body of the `error` event listener attached to connection `i`
(App.tsx lines 101-104): set the error message and close that source. -/
def errorHandler (i : Nat) (s : AppState) : AppState :=
  { s with
      connectionError := some "Connection could not be established"
      conns := closeAt s.conns i }

/-- The connection useEffect body (App.tsx lines 88-113): when the
`changeConnectionUrl` flag is set, close the current EventSource (if any),
clear the error, construct a new EventSource on `connectionUrl ++ "/events"`,
store it, and clear the flag.  Otherwise do nothing. -/
def connectionEffect (s : AppState) : AppState :=
  if s.changeConnectionUrl then
    let cs : List EventSrc :=
      match s.eventSource with
      | some i => closeAt s.conns i
      | none => s.conns
    { s with
        connectionError := none
        conns := cs ++ [{ url := s.connectionUrl ++ "/events", closed := false }]
        eventSource := some cs.length
        changeConnectionUrl := false }
  else s

/-- The model-upload response handler (App.tsx lines 206-210): a response
with status other than 404 sets the model to the derived URL, a 404 leaves
the state alone, and a network failure (rejected fetch promise) reaches the
final catch and performs no state update. -/
def uploadHandler (r : Except String Nat) (s : AppState) : AppState :=
  match r with
  | Except.ok status => if status ≠ 404 then
      { s with model := some (s.connectionUrl ++ "/model.glb") }
    else s
  | Except.error _ => s

/-- The URL fetched by the Reset-device-rotation menu item (App.tsx
line 125). -/
def resetRequestUrl (s : AppState) : String :=
  s.connectionUrl ++ "/reset"

/-- The error text the menubar displays (App.tsx line 165): exactly the
`connectionError` state when it is set. -/
def errorBanner (s : AppState) : Option String :=
  s.connectionError

/-- The transform handed to the rendered node (Center or Box). -/
structure RenderTransform where
  rotation : Fin 3 → ℝ
  scale : ℝ

/-- The Scene component (App.tsx lines 42-73): the optional modelRotation
prop defaults to `[0, 0, 0]` (line 48), `unifiedRotation` adds the telemetry
rotation and the model rotation componentwise (line 49), and both render
branches pass `unifiedRotation` and `props.modelScale` unchanged to the
rendered node (lines 58 and 70). -/
def sceneTransform (modelRotation : Option (Fin 3 → ℝ)) (modelScale : ℝ)
    (rotation : Fin 3 → ℝ) : RenderTransform :=
  let mr := modelRotation.getD ![0, 0, 0]
  { rotation := ![rotation 0 + mr 0, rotation 1 + mr 1, rotation 2 + mr 2]
    scale := modelScale }

/-- A user rotation/scale offset, as held in the `modelRotation` and
`modelScale` state cells and passed to Scene (App.tsx line 222). -/
structure UserOffset where
  rotation : Fin 3 → ℝ
  scale : ℝ

/-- TransformComposer: the composition of a telemetry base rotation with the
user offset, as realized by Scene (App.tsx lines 48-49, 58, 70, 222). -/
def compose (base : Fin 3 → ℝ) (offset : UserOffset) : RenderTransform :=
  sceneTransform (some offset.rotation) offset.scale base

/-- The shared shape of the three rotate menu handlers (App.tsx lines
137-148): add delta to one component of the offset rotation, leaving the
other two untouched. -/
def rotateAxis (axis : Fin 3) (delta : ℝ) (r : Fin 3 → ℝ) : Fin 3 → ℝ :=
  Function.update r axis (r axis + delta)

/-- The UI and transport events the App component reacts to. -/
inductive Ev where
  | effect : Ev
  | openEv : Ev
  | errorEv : Nat → Ev
  | dataEv : Except String GyroData → Ev
  | resetDevice : Ev
  | setupDialog : Ev
  | modelDialog : Ev
  | setUrl : String → Ev
  | setAndUse : Ev
  | cancelAndReset : Ev
  | rotateX : Ev
  | rotateY : Ev
  | rotateZ : Ev
  | scaleBy : ℝ → Ev
  | uploadResult : Except String Nat → Ev
  | modelSet : Ev
  | modelCancel : Ev

/-- The state transformation each event handler performs, read off the
source:
* `effect` is the connection useEffect (lines 88-113);
* `openEv` only logs (lines 97-99);
* `errorEv i` is the error listener of connection `i` (lines 101-104);
* `dataEv p` is the data listener (lines 106-109); a malformed payload
  throws after no state write, so the state is unchanged in that case;
* `resetDevice` performs a fire-and-forget fetch (line 125), no state;
* `setupDialog` and `modelDialog` open the dialogs (lines 122, 133);
* `setUrl u` is the URL input onChange (line 175);
* `setAndUse` is the Set-and-use button (lines 179-182);
* `cancelAndReset` is the Cancel-and-reset button (lines 183-186);
* `rotateX`, `rotateY`, `rotateZ` are the rotate menu items (lines 137-148),
  each adding pi/2 to one component;
* `scaleBy d` is the shape of the four scale menu items (lines 150-161),
  with d one of 0.1, 1, -0.1, -1;
* `uploadResult r` is the upload fetch continuation (lines 206-210);
* `modelSet` and `modelCancel` are the model dialog buttons (lines 214-218).
-/
noncomputable def step (e : Ev) (s : AppState) : AppState :=
  match e with
  | Ev.effect => connectionEffect s
  | Ev.openEv => s
  | Ev.errorEv i => errorHandler i s
  | Ev.dataEv p =>
    match dataHandler p s with
    | Except.ok s2 => s2
    | Except.error _ => s
  | Ev.resetDevice => s
  | Ev.setupDialog => { s with connectionDialogOpen := true }
  | Ev.modelDialog => { s with modelDialogOpen := true }
  | Ev.setUrl u => { s with connectionUrl := u }
  | Ev.setAndUse => { s with connectionDialogOpen := false, changeConnectionUrl := true }
  | Ev.cancelAndReset => { s with connectionUrl := s.origin, connectionDialogOpen := false }
  | Ev.rotateX =>
    { s with modelRotation :=
        ![s.modelRotation 0 + Real.pi / 2, s.modelRotation 1, s.modelRotation 2] }
  | Ev.rotateY =>
    { s with modelRotation :=
        ![s.modelRotation 0, s.modelRotation 1 + Real.pi / 2, s.modelRotation 2] }
  | Ev.rotateZ =>
    { s with modelRotation :=
        ![s.modelRotation 0, s.modelRotation 1, s.modelRotation 2 + Real.pi / 2] }
  | Ev.scaleBy d => { s with modelScale := s.modelScale + d }
  | Ev.uploadResult r => uploadHandler r s
  | Ev.modelSet => { s with modelDialogOpen := false }
  | Ev.modelCancel => { s with model := none, modelDialogOpen := false }

/-- Run a trace of events from the freshly mounted component. -/
noncomputable def run (origin : String) (tr : List Ev) : AppState :=
  tr.foldl (fun a e => step e a) (initState origin)

/-- Number of EventSource instances not yet closed. -/
def openCount (cs : List EventSrc) : Nat :=
  (cs.filter fun c => !c.closed).length

/-- Number of currently open connections of a state. -/
def openConns (s : AppState) : Nat :=
  openCount s.conns

/-- Every connection except possibly the most recently created one has been
closed. -/
def AllButLastClosed (cs : List EventSrc) : Prop :=
  ∀ j c, cs.get? j = some c → j + 1 < cs.length → c.closed = true

/-- Every connection in the list has been closed. -/
def AllClosed (cs : List EventSrc) : Prop :=
  ∀ j c, cs.get? j = some c → c.closed = true

theorem closeAt_length (cs : List EventSrc) (i : Nat) :
    (closeAt cs i).length = cs.length := by
  induction cs generalizing i with
  | nil => rfl
  | cons c cs ih =>
    cases i with
    | zero => rfl
    | succ n => simp [closeAt, ih]

theorem closeAt_get? (cs : List EventSrc) (i j : Nat) :
    (closeAt cs i).get? j =
      if j = i then (cs.get? j).map (fun c => { c with closed := true })
      else cs.get? j := by
  induction cs generalizing i j with
  | nil => simp [closeAt]
  | cons c cs ih =>
    cases i with
    | zero =>
      cases j with
      | zero => simp [closeAt]
      | succ m => simp [closeAt]
    | succ n =>
      cases j with
      | zero => simp [closeAt]
      | succ m =>
        show (closeAt cs n).get? m = _
        rw [ih]
        by_cases h : m = n
        · simp [h]
        · simp [h, fun hh => h (Nat.succ_injective hh)]

theorem openCount_cons_of_closed (c : EventSrc) (cs : List EventSrc)
    (h : c.closed = true) : openCount (c :: cs) = openCount cs := by
  simp [openCount, List.filter, h]

theorem openCount_le_one (cs : List EventSrc) (h : AllButLastClosed cs) :
    openCount cs ≤ 1 := by
  induction cs with
  | nil => simp [openCount]
  | cons c cs ih =>
    cases cs with
    | nil =>
      simp only [openCount, List.filter]
      cases hc : !c.closed <;> simp
    | cons c2 cs2 =>
      have hc : c.closed = true := h 0 c rfl (by simp)
      rw [openCount_cons_of_closed c _ hc]
      exact ih fun j cc hj hlt =>
        h (j + 1) cc hj (by simpa using hlt)

theorem openCount_eq_zero (cs : List EventSrc) (h : AllClosed cs) :
    openCount cs = 0 := by
  induction cs with
  | nil => rfl
  | cons c cs ih =>
    rw [openCount_cons_of_closed c cs (h 0 c rfl)]
    exact ih fun j cc hj => h (j + 1) cc hj

/-- The connection-lifecycle invariant: all connections but the newest are
closed, and the `eventSource` state cell holds the newest connection
(or nothing before the first connection effect). -/
def Inv (s : AppState) : Prop :=
  AllButLastClosed s.conns ∧
    s.eventSource =
      if s.conns.length = 0 then none else some (s.conns.length - 1)

theorem allButLastClosed_closeAt (cs : List EventSrc) (i : Nat)
    (h : AllButLastClosed cs) : AllButLastClosed (closeAt cs i) := by
  intro j c hj hl
  rw [closeAt_get?] at hj
  rw [closeAt_length] at hl
  by_cases hij : j = i
  · rw [if_pos hij] at hj
    rcases Option.map_eq_some'.mp hj with ⟨c0, _, rfl⟩
    rfl
  · rw [if_neg hij] at hj
    exact h j c hj hl

theorem allClosed_closeAt_last (cs : List EventSrc)
    (h : AllButLastClosed cs) : AllClosed (closeAt cs (cs.length - 1)) := by
  intro j c hj
  rw [closeAt_get?] at hj
  by_cases hij : j = cs.length - 1
  · rw [if_pos hij] at hj
    rcases Option.map_eq_some'.mp hj with ⟨c0, _, rfl⟩
    rfl
  · rw [if_neg hij] at hj
    have hlt : j < cs.length := by
      rcases List.get?_eq_some.mp hj with ⟨hlt, _⟩
      exact hlt
    have : j + 1 < cs.length := by omega
    exact h j c hj this

theorem inv_init (origin : String) : Inv (initState origin) := by
  constructor
  · intro j c hj _
    simp [initState] at hj
  · rfl

theorem inv_step (e : Ev) (s : AppState) (h : Inv s) : Inv (step e s) := by
  rcases h with ⟨h1, h2⟩
  cases e with
  | effect =>
    show Inv (connectionEffect s)
    rw [connectionEffect]
    by_cases hflag : s.changeConnectionUrl
    · rw [if_pos hflag]
      cases hes : s.eventSource with
      | none =>
        rw [hes] at h2
        have hlen : s.conns.length = 0 := by
          by_contra hne
          rw [if_neg hne] at h2
          exact Option.noConfusion h2
        have hnil : s.conns = [] := List.length_eq_zero.mp hlen
        constructor
        · intro j c hj hl
          simp [hes, hnil] at hl
        · simp [hes, hnil]
      | some i =>
        rw [hes] at h2
        have hlen : s.conns.length ≠ 0 := by
          by_contra hz
          rw [if_pos hz] at h2
          exact Option.noConfusion h2
        have hi : i = s.conns.length - 1 := by
          rw [if_neg hlen] at h2
          exact Option.some.inj h2
        constructor
        · intro j c hj hl
          simp only [hes] at hj hl
          rw [List.length_append, closeAt_length] at hl
          have hjlt : j < (closeAt s.conns i).length := by
            rw [closeAt_length]
            simpa using Nat.lt_of_succ_lt_succ (by simpa using hl)
          rw [List.get?_append hjlt] at hj
          subst hi
          exact allClosed_closeAt_last s.conns h1 j c hj
        · simp [hes, closeAt_length]
    · rw [if_neg hflag]
      exact ⟨h1, h2⟩
  | errorEv i =>
    refine ⟨allButLastClosed_closeAt s.conns i h1, ?_⟩
    show s.eventSource =
      if (closeAt s.conns i).length = 0 then none
      else some ((closeAt s.conns i).length - 1)
    rw [closeAt_length]
    exact h2
  | dataEv p =>
    cases p with
    | error e => exact ⟨h1, h2⟩
    | ok d => exact ⟨h1, h2⟩
  | openEv => exact ⟨h1, h2⟩
  | resetDevice => exact ⟨h1, h2⟩
  | setupDialog => exact ⟨h1, h2⟩
  | modelDialog => exact ⟨h1, h2⟩
  | setUrl u => exact ⟨h1, h2⟩
  | setAndUse => exact ⟨h1, h2⟩
  | cancelAndReset => exact ⟨h1, h2⟩
  | rotateX => exact ⟨h1, h2⟩
  | rotateY => exact ⟨h1, h2⟩
  | rotateZ => exact ⟨h1, h2⟩
  | scaleBy d => exact ⟨h1, h2⟩
  | uploadResult r =>
    cases r with
    | error e => exact ⟨h1, h2⟩
    | ok status =>
      show Inv (uploadHandler (Except.ok status) s)
      rw [uploadHandler]
      by_cases hs : status ≠ 404
      · rw [if_pos hs]
        exact ⟨h1, h2⟩
      · rw [if_neg hs]
        exact ⟨h1, h2⟩
  | modelSet => exact ⟨h1, h2⟩
  | modelCancel => exact ⟨h1, h2⟩

theorem inv_foldl (tr : List Ev) (s : AppState) (h : Inv s) :
    Inv (tr.foldl (fun a e => step e a) s) := by
  induction tr generalizing s with
  | nil => exact h
  | cons e tr ih => exact ih (step e s) (inv_step e s h)

theorem inv_run (origin : String) (tr : List Ev) : Inv (run origin tr) :=
  inv_foldl tr (initState origin) (inv_init origin)

/-- C1: every data event stores exactly the remapped triple `[x, z, y]` as
the base rotation, and the sample `{x:1, y:2, z:3}` composed with the zero
user offset renders as `[1, 3, 2]`. -/
theorem C1_data_event_maps_axes :
    (∀ (s : AppState) (x y z : ℝ),
        dataHandler (Except.ok ⟨x, y, z⟩) s =
          Except.ok { s with rotation := ![x, z, y] }) ∧
    (compose (mapSample ⟨1, 2, 3⟩) { rotation := ![0, 0, 0], scale := 1 }).rotation
      = ![1, 3, 2] := by
  constructor
  · intro s x y z
    rfl
  · funext i
    fin_cases i <;>
      simp [compose, sceneTransform, mapSample]

/-- C2: the composed render transform adds the base and offset rotations
componentwise on every axis, and its scale is exactly the offset scale. -/
theorem C2_compose_componentwise (base : Fin 3 → ℝ) (offset : UserOffset) :
    (∀ i : Fin 3, (compose base offset).rotation i = base i + offset.rotation i) ∧
    (compose base offset).scale = offset.scale := by
  constructor
  · intro i
    fin_cases i <;> simp [compose, sceneTransform]
  · rfl

/-- Helper for C3: applying a new configuration (the Set-and-use button
followed by the connection effect) closes every previously created
connection; the freshly constructed EventSource sits beyond the old
prefix of the connection list. -/
theorem applyConfig_closes_previous (s : AppState) (h : Inv s) :
    openCount ((step Ev.effect (step Ev.setAndUse s)).conns.take
      s.conns.length) = 0 := by
  have h2 := h.2
  show openCount ((connectionEffect (step Ev.setAndUse s)).conns.take
    s.conns.length) = 0
  rw [connectionEffect]
  rw [if_pos (show (step Ev.setAndUse s).changeConnectionUrl = true from rfl)]
  cases hes : s.eventSource with
  | none =>
    rw [hes] at h2
    have hlen : s.conns.length = 0 := by
      by_contra hne
      rw [if_neg hne] at h2
      exact Option.noConfusion h2
    rw [show (step Ev.setAndUse s).eventSource = s.eventSource from rfl, hes]
    rw [hlen]
    rfl
  | some i =>
    rw [hes] at h2
    have hlen : s.conns.length ≠ 0 := by
      by_contra hz
      rw [if_pos hz] at h2
      exact Option.noConfusion h2
    have hi : i = s.conns.length - 1 := by
      rw [if_neg hlen] at h2
      exact Option.some.inj h2
    rw [show (step Ev.setAndUse s).eventSource = s.eventSource from rfl, hes]
    show openCount
      ((closeAt (step Ev.setAndUse s).conns i
          ++ [({ url := (step Ev.setAndUse s).connectionUrl ++ "/events",
                 closed := false } : EventSrc)]).take s.conns.length) = 0
    rw [show (step Ev.setAndUse s).conns = s.conns from rfl]
    rw [show s.conns.length = (closeAt s.conns i).length from
      (closeAt_length s.conns i).symm]
    rw [List.take_left]
    subst hi
    exact openCount_eq_zero _ (allClosed_closeAt_last s.conns h.1)

/-- C3: along every event trace of the component, at most one streaming
connection is open at any instant; moreover, whenever a new endpoint
configuration is applied (Set-and-use followed by the connection effect),
every connection that existed beforehand ends up closed, the new
EventSource being the only one possibly open. -/
theorem C3_at_most_one_open_connection (origin : String) (tr : List Ev) :
    openConns (run origin tr) ≤ 1 ∧
    openCount ((step Ev.effect (step Ev.setAndUse (run origin tr))).conns.take
      (run origin tr).conns.length) = 0 := by
  have hinv := inv_run origin tr
  exact ⟨openCount_le_one _ hinv.1,
    applyConfig_closes_previous (run origin tr) hinv⟩

/-- C4 counterexample: after the user offset action `rotateAxis 1 1.5708`
(one Y-axis offset of 1.5708 radians) and the sample `{x:0, y:0, z:0}`, the
composed rotation is NOT `[0, 0, 1.5708]`: the offset appears at index 1,
not at index 2. -/
theorem C4_counterexample :
    (compose (mapSample ⟨0, 0, 0⟩)
        { rotation := rotateAxis 1 1.5708 ![0, 0, 0], scale := 1 }).rotation 1
      = 1.5708 ∧
    ¬ (compose (mapSample ⟨0, 0, 0⟩)
          { rotation := rotateAxis 1 1.5708 ![0, 0, 0], scale := 1 }).rotation
        = ![0, 0, 1.5708] := by
  constructor
  · simp [compose, sceneTransform, mapSample, rotateAxis, Function.update]
  · intro hEq
    have h1 := congrFun hEq 1
    simp [compose, sceneTransform, mapSample, rotateAxis,
      Function.update] at h1
    norm_num at h1

/-- C4 amended: after the user offset action `rotateAxis 1 1.5708` and the
sample `{x:0, y:0, z:0}`, the composed rotation triple is `[0, 1.5708, 0]`
(the Y offset occupies index 1; the sensor axis swap applies only to the
telemetry sample, never to user offsets). -/
theorem C4_composed_rotation_after_y_offset :
    (compose (mapSample ⟨0, 0, 0⟩)
        { rotation := rotateAxis 1 1.5708 ![0, 0, 0], scale := 1 }).rotation
      = ![0, 1.5708, 0] := by
  funext i
  fin_cases i <;>
    simp [compose, sceneTransform, mapSample, rotateAxis, Function.update]

/-- C5: a data payload that fails to parse makes the message handler itself
fail: the parse error propagates out of the handler unchanged, since the
listener body contains no try/catch around `JSON.parse`. -/
theorem C5_parse_failure_propagates (s : AppState) (msg : String) :
    dataHandler (Except.error msg) s = Except.error msg :=
  rfl

/-- C6: the transport error listener closes the connection it is attached
to, surfaces the fixed human-readable message to the menubar, and attempts
no reconnection: no new EventSource is constructed, the reconnect flag and
the stored source are untouched. -/
theorem C6_error_closes_no_retry (s : AppState) (i : Nat) (c : EventSrc)
    (h : (errorHandler i s).conns.get? i = some c) :
    c.closed = true ∧
    errorBanner (errorHandler i s)
      = some "Connection could not be established" ∧
    (errorHandler i s).conns.length = s.conns.length ∧
    (errorHandler i s).changeConnectionUrl = s.changeConnectionUrl ∧
    (errorHandler i s).eventSource = s.eventSource := by
  refine ⟨?_, rfl, closeAt_length s.conns i, rfl, rfl⟩
  rw [show (errorHandler i s).conns = closeAt s.conns i from rfl,
    closeAt_get?, if_pos rfl] at h
  rcases Option.map_eq_some'.mp h with ⟨c0, _, rfl⟩
  rfl

/-- Witness for C6 at a concrete state: the first connection of a freshly
mounted component, hit by a transport error. -/
theorem C6_error_closes_no_retry_witness :
    errorBanner (errorHandler 0 (step Ev.effect (initState "http://h")))
      = some "Connection could not be established" :=
  (C6_error_closes_no_retry (step Ev.effect (initState "http://h")) 0
      { url := "http://h" ++ "/events", closed := true } rfl).2.1

/-- C7 counterexample: merely constructing the component is enough to open
a connection.  The `changeConnectionUrl` flag is initialized to `true`
(App.tsx line 79), so the very first run of the connection effect (which
React performs on mount, before any user action) constructs an EventSource
on the origin-derived URL. -/
theorem C7_counterexample :
    (initState "http://h").changeConnectionUrl = true ∧
    openConns (initState "http://h") = 0 ∧
    openConns (step Ev.effect (initState "http://h")) = 1 ∧
    (step Ev.effect (initState "http://h")).conns
      = [{ url := "http://h" ++ "/events", closed := false }] :=
  ⟨rfl, rfl, rfl, rfl⟩

/-- C7 amended: constructing the component does trigger a connection
attempt: the apply flag starts out `true`, so the mount-time effect opens an
EventSource on `origin ++ "/events"` with no user action; only after this
first effect run has cleared the flag does the effect become inert until the
Set-and-use action raises the flag again. -/
theorem C7_mount_opens_connection (origin : String) :
    (initState origin).changeConnectionUrl = true ∧
    (step Ev.effect (initState origin)).conns
      = [{ url := origin ++ "/events", closed := false }] ∧
    (step Ev.effect (initState origin)).changeConnectionUrl = false ∧
    (∀ s : AppState, s.changeConnectionUrl = false → step Ev.effect s = s) ∧
    (∀ s : AppState, (step Ev.setAndUse s).changeConnectionUrl = true) := by
  refine ⟨rfl, rfl, rfl, ?_, fun s => rfl⟩
  intro s hs
  show connectionEffect s = s
  rw [connectionEffect, if_neg]
  simp [hs]

/-- Witness for C7 amended: with the flag already cleared by the mount-time
effect, a further effect run changes nothing. -/
theorem C7_mount_opens_connection_witness :
    step Ev.effect (step Ev.effect (initState "http://h"))
      = step Ev.effect (initState "http://h") :=
  (C7_mount_opens_connection "http://h").2.2.2.1
    (step Ev.effect (initState "http://h"))
    (C7_mount_opens_connection "http://h").2.2.1

/-- C8: four consecutive X-axis rotate actions, each adding pi/2, leave the
X offset at exactly its original value plus two pi; the other two offset
components are untouched, and no wraparound or normalization into a
canonical range ever happens. -/
theorem C8_four_x_rotations_accumulate (s : AppState) :
    (step Ev.rotateX (step Ev.rotateX (step Ev.rotateX
        (step Ev.rotateX s)))).modelRotation 0
      = s.modelRotation 0 + 2 * Real.pi ∧
    (step Ev.rotateX (step Ev.rotateX (step Ev.rotateX
        (step Ev.rotateX s)))).modelRotation 1
      = s.modelRotation 1 ∧
    (step Ev.rotateX (step Ev.rotateX (step Ev.rotateX
        (step Ev.rotateX s)))).modelRotation 2
      = s.modelRotation 2 := by
  refine ⟨?_, rfl, rfl⟩
  show s.modelRotation 0 + Real.pi / 2 + Real.pi / 2 + Real.pi / 2 + Real.pi / 2
    = s.modelRotation 0 + 2 * Real.pi
  ring

/-- C9: an upload response with any status other than 404 sets the model to
the derived URL `connectionUrl ++ "/model.glb"` and changes nothing else; a
404 response leaves the state entirely unchanged; a network failure leaves
the state entirely unchanged.  In particular neither failure mode touches
`connectionError`, so no user-visible error is produced. -/
theorem C9_upload_response (s : AppState) (status : Nat) (e : String)
    (h : status ≠ 404) :
    uploadHandler (Except.ok status) s
      = { s with model := some (s.connectionUrl ++ "/model.glb") } ∧
    uploadHandler (Except.ok 404) s = s ∧
    uploadHandler (Except.error e) s = s := by
  refine ⟨?_, ?_, rfl⟩
  · show (if status ≠ 404 then
        { s with model := some (s.connectionUrl ++ "/model.glb") } else s) = _
    rw [if_pos h]
  · show (if (404 : Nat) ≠ 404 then
        { s with model := some (s.connectionUrl ++ "/model.glb") } else s) = s
    rw [if_neg (by decide)]

/-- Witness for C9 at concrete inputs: a 200 response, a 404 response and a
network failure against the freshly mounted state. -/
theorem C9_upload_response_witness :
    uploadHandler (Except.ok 200) (initState "http://h")
      = { initState "http://h" with
            model := some ((initState "http://h").connectionUrl
              ++ "/model.glb") } ∧
    uploadHandler (Except.ok 404) (initState "http://h")
      = initState "http://h" ∧
    uploadHandler (Except.error "network failure") (initState "http://h")
      = initState "http://h" :=
  C9_upload_response (initState "http://h") 200 "network failure" (by decide)

/-- C10: the Cancel-and-reset button resets the stored endpoint URL to the
page origin and closes the dialog, but touches neither the EventSource list,
the stored source, the connection error, nor the reconnect flag; since the
flag stays `false`, a further effect run changes nothing (the live stream
keeps using the previously applied endpoint), while the reset-device and
model-upload requests are now derived from the reset URL. -/
theorem C10_cancel_and_reset (s : AppState)
    (h : s.changeConnectionUrl = false) :
    (step Ev.cancelAndReset s).connectionUrl = s.origin ∧
    (step Ev.cancelAndReset s).connectionDialogOpen = false ∧
    (step Ev.cancelAndReset s).conns = s.conns ∧
    (step Ev.cancelAndReset s).eventSource = s.eventSource ∧
    (step Ev.cancelAndReset s).connectionError = s.connectionError ∧
    step Ev.effect (step Ev.cancelAndReset s) = step Ev.cancelAndReset s ∧
    resetRequestUrl (step Ev.cancelAndReset s) = s.origin ++ "/reset" ∧
    (uploadHandler (Except.ok 200) (step Ev.cancelAndReset s)).model
      = some (s.origin ++ "/model.glb") := by
  refine ⟨rfl, rfl, rfl, rfl, rfl, ?_, rfl, rfl⟩
  show connectionEffect (step Ev.cancelAndReset s) = step Ev.cancelAndReset s
  rw [connectionEffect, if_neg]
  show ¬(step Ev.cancelAndReset s).changeConnectionUrl = true
  simp [show (step Ev.cancelAndReset s).changeConnectionUrl
    = s.changeConnectionUrl from rfl, h]

/-- Witness for C10 at a concrete state: the steady state reached right
after mounting (where the reconnect flag has been cleared). -/
theorem C10_cancel_and_reset_witness :
    step Ev.effect (step Ev.cancelAndReset
        (step Ev.effect (initState "http://h")))
      = step Ev.cancelAndReset (step Ev.effect (initState "http://h")) :=
  (C10_cancel_and_reset (step Ev.effect (initState "http://h"))
    rfl).2.2.2.2.2.1

end ModelViewer
